import Mathlib

/-!
Verification of the MNF batch pipeline (`MNF_cmd.py`) and of the raster clip
tool (`clip.py`) of the Python-Remote-Sensing-Scripts repository.

Numeric arrays are embedded as total index functions over `ℕ` together with
explicit shape fields (numpy shapes are carried alongside the data).  Pixel
values are real numbers.  The external numerical engines (pysptools MNF,
Savitzky-Golay, sklearn PCA, rasterio I/O) are abstracted as parameters; the
orchestration code of the repository is translated line by line.
-/

namespace RS

/-- A 3-dimensional numpy array: shape `(d0, d1, d2)` plus the data as a total
index function.  Entries outside the shape are phantom values that no
operation of the pipeline observes. -/
structure Arr3 where
  d0 : ℕ
  d1 : ℕ
  d2 : ℕ
  data : ℕ → ℕ → ℕ → ℝ

/-- `reshape_as_image` (MNF_cmd.py lines 102-114): swap the axes order from
(bands, rows, columns) to (rows, columns, bands), `np.ma.transpose(arr, [1,2,0])`. -/
def reshape_as_image (arr : Arr3) : Arr3 :=
  ⟨arr.d1, arr.d2, arr.d0, fun r c b => arr.data b r c⟩

/-- `reshape_as_raster` (MNF_cmd.py lines 116-126): swap the axes order from
(rows, columns, bands) to (bands, rows, columns), `np.transpose(arr, [2,0,1])`. -/
def reshape_as_raster (arr : Arr3) : Arr3 :=
  ⟨arr.d2, arr.d0, arr.d1, fun b r c => arr.data r c b⟩

/-- `BrigthnessNormalization` (MNF_cmd.py lines 72-74):
`r = img / np.sqrt(np.sum((img**2), 0))`.  The Python function receives a
1-D band vector (it is invoked through `np.apply_along_axis(·, 0, r2)`); the
vector length `B` is implicit in the numpy array and explicit here. -/
noncomputable def BrigthnessNormalization (B : ℕ) (img : ℕ → ℝ) : ℕ → ℝ :=
  fun i => img i / Real.sqrt (∑ j ∈ Finset.range B, img j ^ 2)

/-- `np.apply_along_axis(f, 0, a)`: apply `f` to every 1-D slice of `a` taken
along axis 0.  `f` receives the slice length and the slice. -/
def np_apply_along_axis0 (f : ℕ → (ℕ → ℝ) → (ℕ → ℝ)) (a : Arr3) : Arr3 :=
  ⟨a.d0, a.d1, a.d2, fun b r c => f a.d0 (fun j => a.data j r c) b⟩

/-- Guarded variant of `BrigthnessNormalization`: a total embedding in which
the division is guarded, returning `none` exactly when the denominator
`np.sqrt(np.sum(img**2, 0))` is zero.  The source itself has no such guard. -/
noncomputable def BrigthnessNormalizationChecked (B : ℕ) (img : ℕ → ℝ) :
    Option (ℕ → ℝ) :=
  if Real.sqrt (∑ j ∈ Finset.range B, img j ^ 2) = 0 then none
  else some (BrigthnessNormalization B img)

/-- Python string slice `s[:-4]`: all characters but the last four (the whole
string shrinks to empty when it has at most four characters, as in Python). -/
def pySliceDropLast4 (s : String) : String :=
  String.mk (s.data.take (s.data.length - 4))

/-- The pysptools / scipy numerical engine, abstracted: `ns.MNF().apply`,
`ns.MNF().inverse_transform`, `ns.MNF().get_components` and
`ns.SavitzkyGolay().denoise_bands`.  The repository delegates all of this
mathematics to the external library; only the call structure is its own. -/
structure MNFLib where
  applyT : Arr3 → Arr3
  inverse_transform : Arr3 → Arr3
  get_components : ℤ → Arr3 → Arr3
  denoise_bands : Arr3 → ℕ → ℕ → Arr3

/-- `MNF` (MNF_cmd.py lines 76-80): `mnf.apply(img); r = mnf.get_components(n)`. -/
def MNF (lib : MNFLib) (img : Arr3) (n_components : ℤ) : Arr3 :=
  lib.get_components n_components (lib.applyT img)

/-- Python slice `a[:, :, lo:hi]` on a band-last cube (`0 ≤ lo ≤ hi` slices,
clamped to the band count as in Python). -/
def sliceBands (a : Arr3) (lo hi : ℕ) : Arr3 :=
  ⟨a.d0, a.d1, min hi a.d2 - min lo a.d2, fun r c b => a.data r c (b + lo)⟩

/-- Python slice assignment `a[:, :, 1:2] = x`: writes band 1 from band 0 of
`x` when band 1 exists; a no-op when `a` has at most one band (the slice is
then empty, as in Python). -/
def assignBandSlice12 (a : Arr3) (x : Arr3) : Arr3 :=
  ⟨a.d0, a.d1, a.d2, fun r c b =>
    if b = 1 ∧ 1 < a.d2 then x.data r c 0 else a.data r c b⟩

/-- `MNF_reduce_component_2_noise_and_invert` (MNF_cmd.py lines 82-94):
apply the transform, overwrite `tdata[:,:,1:2]` with
`dn.denoise_bands(tdata[:,:,1:2], 15, 2)`, inverse-transform, and return
`r[:,:,1:n_components+1]`. -/
def MNF_reduce_component_2_noise_and_invert (lib : MNFLib) (img : Arr3)
    (n_components : ℤ) : Arr3 :=
  let tdata := lib.applyT img
  let tdata2 := assignBandSlice12 tdata (lib.denoise_bands (sliceBands tdata 1 2) 15 2)
  let r := lib.inverse_transform tdata2
  let r2 := sliceBands r 1 (n_components + 1).toNat
  r2

/-- The configuration record produced by the argument layer of MNF_cmd.py
(lines 145-152): `args['format']`, `args['components']`, `args['method']`,
`args['preprop']`, `args['variance']`.  The two integers are Python ints. -/
structure Config where
  format : String
  components : ℤ
  method : ℤ
  preprop : Bool
  variance : Bool

/-- An opened input raster (`rasterio.open` dataset plus its `read()` cube):
`name` is `os.path.basename` of the file, `rows`/`cols` are `shape[0]`/`shape[1]`,
`bands` the band count of the band-first cube `data`; `dtype`, `crs` and
`transform` are carried as abstract tokens. -/
structure InRaster where
  name : String
  rows : ℕ
  cols : ℕ
  bands : ℕ
  data : ℕ → ℕ → ℕ → ℝ
  dtype : String
  crs : String
  transform : String

/-- `r.read()`: the full band-first cube of an opened raster. -/
def InRaster.read (r : InRaster) : Arr3 :=
  ⟨r.bands, r.rows, r.cols, r.data⟩

/-- A raster written by `rasterio.open(output, 'w', ...)` followed by
`write`: the output path, the keyword metadata, and the pixel payload. -/
structure WrittenRaster where
  path : String
  height : ℕ
  width : ℕ
  count : ℤ
  dtype : String
  crs : String
  transform : String
  data : Arr3

/-- `saveMNF` (MNF_cmd.py lines 128-137): reshape the band-last result to
band-first and write it to `"MNF/" + name[:-4] + "_MNF.tif"` with
`height=inputRaster.shape[0]`, `width=inputRaster.shape[1]`,
`count=int(n_components)`, and the input's dtype, crs and transform. -/
def saveMNF (n_components : ℤ) (name : String) (img : Arr3)
    (inputRaster : InRaster) : WrittenRaster :=
  let img2 := reshape_as_raster img
  { path := "MNF/" ++ pySliceDropLast4 name ++ "_MNF.tif",
    height := inputRaster.rows,
    width := inputRaster.cols,
    count := n_components,
    dtype := inputRaster.dtype,
    crs := inputRaster.crs,
    transform := inputRaster.transform,
    data := img2 }

/-- The per-file image computation shared by all three branches of the main
loop (MNF_cmd.py lines 168-172, 182-186, 198-202):

    if args["preprop"]==True:
        bn = np.apply_along_axis(BrigthnessNormalization, 0, r2)
        img = reshape_as_image(bn)
    img = reshape_as_image(r2)

The second assignment is unconditional (it sits at the indentation level of
the `if`), so it overwrites `img` in every run; the normalized `bn` is
computed and then discarded. -/
noncomputable def loopBodyImg (preprop : Bool) (r2 : Arr3) : Arr3 :=
  let _img_if_preprop : Option Arr3 :=
    if preprop then some (reshape_as_image (np_apply_along_axis0 BrigthnessNormalization r2)) else none
  let img := reshape_as_image r2
  img

/-- The usage message printed by the final `else` branch (MNF_cmd.py lines
207-215). -/
def usageLines : List String :=
  ["ERROR!. Command should have the form:",
   "python MNF.py -f <Imput raster formar> -c <Number of components> -m <Method option>[optional] -v <Accumulated explained variance>[optional]",
   "",
   "Method options: 1 (default) regular MNF transformation",
   "                2  Reduce the second component noise and return the inverse transform",
   "                   Use Savitzky Golay methods",
   "",
   "example: python MNF_cmd.py -f tif -c 10"]

/-- The observable outcome of one run of MNF_cmd.py: every printed line, every
raster written, and whether the `MNF` output directory was ensured. -/
structure RunResult where
  printed : List String
  written : List WrittenRaster
  ensuredMNFDir : Bool

/-- The `__main__` block of MNF_cmd.py (lines 154-215) as a function of the
configuration and the discovered image list.  `n_components` is assigned
`args['method']` exactly as in line 155 of the source.  `pcaLine` abstracts
the line printed by `explained_variance` (MNF_cmd.py lines 96-100, an
external sklearn PCA fit on the image passed to it). -/
noncomputable def runMain (lib : MNFLib) (pcaLine : Arr3 → String)
    (cfg : Config) (imageList : List InRaster) : RunResult :=
  let n_components := cfg.method
  if cfg.variance = true then
    { printed := imageList.flatMap fun r =>
        ["Accumulated explained variances of " ++ r.name ++ "are:",
         pcaLine (loopBodyImg cfg.preprop r.read)],
      written := [],
      ensuredMNFDir := true }
  else if cfg.method = 1 then
    { printed := imageList.map fun r => "Creating MNF components of " ++ r.name,
      written := imageList.map fun r =>
        saveMNF n_components r.name (MNF lib (loopBodyImg cfg.preprop r.read) n_components) r,
      ensuredMNFDir := true }
  else if cfg.method = 2 then
    { printed := imageList.map fun r => "Creating MNF components of " ++ r.name,
      written := imageList.map fun r =>
        saveMNF n_components r.name
          (MNF_reduce_component_2_noise_and_invert lib (loopBodyImg cfg.preprop r.read) n_components) r,
      ensuredMNFDir := true }
  else
    { printed := usageLines, written := [], ensuredMNFDir := true }

/-- The metadata dictionary `src.meta` of a rasterio dataset: driver, dtype,
nodata, width, height, count, crs, transform. -/
structure Meta where
  driver : String
  dtype : String
  nodata : Option ℝ
  width : ℕ
  height : ℕ
  count : ℕ
  crs : String
  transform : String

/-- The result of `rasterio.mask.mask(src, features, crop=True)` that clip.py
consumes: the cropped cube's `shape[1]` and `shape[2]` and the new transform. -/
structure MaskResult where
  shape1 : ℕ
  shape2 : ℕ
  transform : String

/-- clip.py lines 40-45: `meta = src.meta.copy()` then
`meta.update({"driver": "GTiff", "height": img.shape[1], "width": img.shape[2],
"transform": transform})`. -/
def clipOutputMeta (srcMeta : Meta) (m : MaskResult) : Meta :=
  { srcMeta with
    driver := "GTiff",
    height := m.shape1,
    width := m.shape2,
    transform := m.transform }

/-- clip.py line 48: `output = raster[:-4] + "_mask.tif"`. -/
def clipOutputName (raster : String) : String :=
  pySliceDropLast4 raster ++ "_mask.tif"

/-- Modelled from the spec: the output naming rule as the specification words
it, "written to `<raster-stem>_mask.<ext>`" — the input path's stem kept and
its extension re-attached after `_mask.`.  This is the comparison point for
the naming claim; `clipOutputName` above is the source's rule. -/
def clipOutputNameSpec (stem ext : String) : String :=
  stem ++ "_mask." ++ ext

/-- An MNF engine instance for concrete evaluations: the identity transform
with an identity smoother.  It is shape-preserving, as the pysptools engine
is. -/
def idLib : MNFLib :=
  ⟨id, id, fun _ a => a, fun a _ _ => a⟩

/-- A concrete input raster for concrete evaluations: 20 bands of 4×5 zeros. -/
def file1 : InRaster :=
  ⟨"a.tif", 4, 5, 20, fun _ _ _ => 0, "float64", "EPSG:32718", "affine1"⟩

/-- A concrete 2-band 1×1 band-first cube whose single pixel has the band
vector (3, 4). -/
def cube34 : Arr3 :=
  ⟨2, 1, 1, fun b _ _ => if b = 0 then 3 else 4⟩

/-- A concrete configuration: `-f tif -c 10 -m 1` with no optional flags
(`python MNF_cmd.py -f tif -c 10`, the usage example of the script header). -/
def cfgC1 : Config :=
  ⟨"tif", 10, 1, false, false⟩

/-- A concrete 5-band 1×1 band-last image for evaluating the method-2 path. -/
def img5 : Arr3 :=
  ⟨1, 1, 5, fun _ _ _ => 0⟩

end RS

namespace RS

/-- Theorem for claim C4: the reshape round trip is the identity. -/
theorem reshape_roundtrip (a : Arr3) : reshape_as_raster (reshape_as_image a) = a :=
  rfl

/-- Theorem for claim C3: on a band vector of non-zero L2 norm,
`BrigthnessNormalization` returns a vector of unit L2 norm across the bands. -/
theorem brightness_normalization_unit_norm (B : ℕ) (v : ℕ → ℝ)
    (h : Real.sqrt (∑ j ∈ Finset.range B, v j ^ 2) ≠ 0) :
    Real.sqrt (∑ j ∈ Finset.range B, BrigthnessNormalization B v j ^ 2) = 1 := by
  set S : ℝ := ∑ j ∈ Finset.range B, v j ^ 2 with hS
  have hS0 : 0 ≤ S := Finset.sum_nonneg fun j _ => sq_nonneg (v j)
  have hSpos : 0 < S := by
    rcases lt_or_eq_of_le hS0 with hlt | heq
    · exact hlt
    · exact absurd (by rw [← heq, Real.sqrt_zero]) h
  have hsq : Real.sqrt S ^ 2 = S := Real.sq_sqrt hS0
  have hsum : ∑ j ∈ Finset.range B, BrigthnessNormalization B v j ^ 2 = 1 := by
    unfold BrigthnessNormalization
    rw [← hS]
    calc ∑ j ∈ Finset.range B, (v j / Real.sqrt S) ^ 2
        = ∑ j ∈ Finset.range B, v j ^ 2 / S := by
          refine Finset.sum_congr rfl fun j _ => ?_
          rw [div_pow, hsq]
      _ = S / S := by rw [← Finset.sum_div, ← hS]
      _ = 1 := div_self (ne_of_gt hSpos)
  rw [hsum, Real.sqrt_one]

/-- Witness for `brightness_normalization_unit_norm` at the band vector
`(3, 4)` of length 2, whose L2 norm is 5. -/
theorem brightness_normalization_unit_norm_witness :
    Real.sqrt (∑ j ∈ Finset.range 2,
      BrigthnessNormalization 2 (fun j => if j = 0 then (3 : ℝ) else 4) j ^ 2) = 1 := by
  refine brightness_normalization_unit_norm 2 (fun j => if j = 0 then (3 : ℝ) else 4) ?_
  have h25 : (∑ j ∈ Finset.range 2,
      (fun j => if j = 0 then (3 : ℝ) else 4) j ^ 2) = 25 := by
    rw [Finset.sum_range_succ, Finset.sum_range_succ, Finset.sum_range_zero]
    norm_num
  rw [h25]
  rw [Real.sqrt_ne_zero']
  norm_num

/-- Theorem for claim C9: the guarded embedding of `BrigthnessNormalization`
takes its error branch exactly when the denominator is zero, which happens
exactly when the band vector is zero on all of its `B` entries. -/
theorem brightness_normalization_guard (B : ℕ) (v : ℕ → ℝ) :
    (BrigthnessNormalizationChecked B v = none ↔
      Real.sqrt (∑ j ∈ Finset.range B, v j ^ 2) = 0) ∧
    (BrigthnessNormalizationChecked B v = none ↔ ∀ j < B, v j = 0) := by
  have hiff : BrigthnessNormalizationChecked B v = none ↔
      Real.sqrt (∑ j ∈ Finset.range B, v j ^ 2) = 0 := by
    unfold BrigthnessNormalizationChecked
    by_cases h : Real.sqrt (∑ j ∈ Finset.range B, v j ^ 2) = 0
    · simp [h]
    · simp [h]
  refine ⟨hiff, hiff.trans ?_⟩
  have hnn : 0 ≤ ∑ j ∈ Finset.range B, v j ^ 2 :=
    Finset.sum_nonneg fun j _ => sq_nonneg (v j)
  rw [Real.sqrt_eq_zero hnn]
  constructor
  · intro hz j hj
    have hall := (Finset.sum_eq_zero_iff_of_nonneg
      (fun j _ => sq_nonneg (v j))).mp hz
    have := hall j (Finset.mem_range.mpr hj)
    exact pow_eq_zero_iff (n := 2) (by norm_num) |>.mp this
  · intro hz
    refine Finset.sum_eq_zero fun j hj => ?_
    rw [hz j (Finset.mem_range.mp hj)]
    ring

/-- Theorem for claim C6: with the variance flag off and a method value that
is neither 1 nor 2, the run prints exactly the usage message, writes no
raster, and ends normally, independently of the discovered files. -/
theorem invalid_method_prints_usage (lib : MNFLib) (pcaLine : Arr3 → String)
    (cfg : Config) (files : List InRaster)
    (hv : cfg.variance = false) (h1 : cfg.method ≠ 1) (h2 : cfg.method ≠ 2) :
    runMain lib pcaLine cfg files =
      { printed := usageLines, written := [], ensuredMNFDir := true } := by
  unfold runMain
  simp [hv, h1, h2]

/-- Witness for `invalid_method_prints_usage` at a concrete configuration
with method 3 and one discovered file. -/
theorem invalid_method_prints_usage_witness :
    runMain idLib (fun _ => "pca") ⟨"tif", 10, 3, false, false⟩ [file1] =
      { printed := usageLines, written := [], ensuredMNFDir := true } :=
  invalid_method_prints_usage idLib (fun _ => "pca") ⟨"tif", 10, 3, false, false⟩
    [file1] rfl (by decide) (by decide)

/-- Theorem for claim C7: with the variance flag on, no raster is ever
written; the printed output is exactly the per-file variance report header
and the external PCA report line, and the output directory is ensured. -/
theorem variance_mode_writes_nothing (lib : MNFLib) (pcaLine : Arr3 → String)
    (cfg : Config) (files : List InRaster) (hv : cfg.variance = true) :
    (runMain lib pcaLine cfg files).written = [] ∧
    (runMain lib pcaLine cfg files).printed = (files.flatMap fun r =>
      ["Accumulated explained variances of " ++ r.name ++ "are:",
       pcaLine (loopBodyImg cfg.preprop r.read)]) ∧
    (runMain lib pcaLine cfg files).ensuredMNFDir = true := by
  unfold runMain
  simp [hv]

/-- Witness for `variance_mode_writes_nothing` at a concrete variance-mode
configuration with one discovered file. -/
theorem variance_mode_writes_nothing_witness :
    (runMain idLib (fun _ => "pca") ⟨"tif", 10, 1, true, true⟩ [file1]).written = [] ∧
    (runMain idLib (fun _ => "pca") ⟨"tif", 10, 1, true, true⟩ [file1]).printed =
      ["Accumulated explained variances of a.tifare:", "pca"] ∧
    (runMain idLib (fun _ => "pca") ⟨"tif", 10, 1, true, true⟩ [file1]).ensuredMNFDir = true := by
  have h := variance_mode_writes_nothing idLib (fun _ => "pca")
    ⟨"tif", 10, 1, true, true⟩ [file1] rfl
  exact h

/-- Theorem for claim C10: in variance mode the method value never influences
the run: two runs differing only in the method flag have identical results. -/
theorem variance_mode_ignores_method (lib : MNFLib) (pcaLine : Arr3 → String)
    (cfg : Config) (files : List InRaster) (m : ℤ) (hv : cfg.variance = true) :
    runMain lib pcaLine { cfg with method := m } files =
      runMain lib pcaLine cfg files := by
  unfold runMain
  simp [hv]

/-- Witness for `variance_mode_ignores_method`: a variance-mode run with
method 5 (an invalid value) equals the same run with method 1. -/
theorem variance_mode_ignores_method_witness :
    runMain idLib (fun _ => "pca") ⟨"tif", 1, 5, false, true⟩ [file1] =
      runMain idLib (fun _ => "pca") ⟨"tif", 1, 1, false, true⟩ [file1] :=
  variance_mode_ignores_method idLib (fun _ => "pca") ⟨"tif", 1, 1, false, true⟩
    [file1] 5 rfl

/-- Theorem for claim C1 (the bug): in the run `-f tif -c 10 -m 1`, the
written raster has `count` 1 — the value of the method flag, which line 155
of the source assigns to `n_components` — and not the value 10 of the
components flag. -/
theorem components_flag_ignored :
    ((runMain idLib (fun _ => "pca") cfgC1 [file1]).written.map fun w => w.count) =
      [1] ∧ cfgC1.components = 10 ∧ (1 : ℤ) ≠ 10 := by
  refine ⟨rfl, rfl, by decide⟩

/-- Theorem for claim C2 (the bug): the image handed to the MNF transform is
always `reshape_as_image r2` — the raw, un-normalized cube — because the
assignment `img = reshape_as_image(r2)` is unconditional; at the concrete
pixel vector (3, 4) the handed image differs from the brightness-normalized
one. -/
theorem preprocessing_discarded :
    (∀ (p : Bool) (a : Arr3), loopBodyImg p a = reshape_as_image a) ∧
    loopBodyImg true cube34 ≠
      reshape_as_image (np_apply_along_axis0 BrigthnessNormalization cube34) := by
  refine ⟨fun p a => rfl, fun h => ?_⟩
  have h0 := congrArg (fun a => a.data 0 0 0) h
  simp only [loopBodyImg, reshape_as_image, np_apply_along_axis0,
    BrigthnessNormalization, cube34] at h0
  norm_num [Finset.sum_range_succ] at h0
  have h5 : Real.sqrt 25 = 5 := by
    rw [show (25 : ℝ) = 5 ^ 2 by norm_num, Real.sqrt_sq (by norm_num : (0:ℝ) ≤ 5)]
  rw [h5] at h0
  norm_num at h0

/-- Counterexample for claim C5 as stated: at a 2-band image and
`n_components = 2`, the returned cube has 1 band, not `n_components` bands —
the Python slice `r[:,:,1:n_components+1]` clamps to the available bands. -/
theorem method2_band_slice_clamps :
    (MNF_reduce_component_2_noise_and_invert idLib ⟨1, 1, 2, fun _ _ _ => 0⟩ 2).d2 ≠ 2 := by
  decide

/-- Theorem for claim C5 as amended: when the inverse-transformed cube has at
least `n_components + 1` bands, `MNF_reduce_component_2_noise_and_invert`
replaces exactly band 1 of the transformed cube with band 0 of
`denoise_bands` applied to the band-1 slice with window 15 and degree 2,
leaves every other band unchanged, and returns the `n_components` bands
1 .. `n_components` of the inverse transform. -/
theorem method2_structure (lib : MNFLib) (img : Arr3) (n : ℤ) (hn : 1 ≤ n)
    (hb : n.toNat + 1 ≤ (lib.inverse_transform (assignBandSlice12 (lib.applyT img)
      (lib.denoise_bands (sliceBands (lib.applyT img) 1 2) 15 2))).d2) :
    (∀ r c b, b ≠ 1 →
      (assignBandSlice12 (lib.applyT img)
        (lib.denoise_bands (sliceBands (lib.applyT img) 1 2) 15 2)).data r c b =
      (lib.applyT img).data r c b) ∧
    (1 < (lib.applyT img).d2 → ∀ r c,
      (assignBandSlice12 (lib.applyT img)
        (lib.denoise_bands (sliceBands (lib.applyT img) 1 2) 15 2)).data r c 1 =
      (lib.denoise_bands (sliceBands (lib.applyT img) 1 2) 15 2).data r c 0) ∧
    (MNF_reduce_component_2_noise_and_invert lib img n).d2 = n.toNat ∧
    (∀ r c b, (MNF_reduce_component_2_noise_and_invert lib img n).data r c b =
      (lib.inverse_transform (assignBandSlice12 (lib.applyT img)
        (lib.denoise_bands (sliceBands (lib.applyT img) 1 2) 15 2))).data r c (b + 1)) := by
  refine ⟨?_, ?_, ?_, ?_⟩
  · intro r c b hb1
    simp [assignBandSlice12, hb1]
  · intro hd r c
    simp [assignBandSlice12, hd]
  · have htn : (n + 1).toNat = n.toNat + 1 :=
      Int.toNat_add (le_trans (by norm_num) hn) (by norm_num)
    show min (n + 1).toNat (lib.inverse_transform (assignBandSlice12 (lib.applyT img)
        (lib.denoise_bands (sliceBands (lib.applyT img) 1 2) 15 2))).d2 -
      min 1 (lib.inverse_transform (assignBandSlice12 (lib.applyT img)
        (lib.denoise_bands (sliceBands (lib.applyT img) 1 2) 15 2))).d2 = n.toNat
    rw [htn]
    omega
  · intro r c b
    rfl

/-- Witness for `method2_structure` at the identity engine, a 5-band image
and `n_components = 2`. -/
theorem method2_structure_witness :
    (∀ r c b, b ≠ 1 →
      (assignBandSlice12 (idLib.applyT img5)
        (idLib.denoise_bands (sliceBands (idLib.applyT img5) 1 2) 15 2)).data r c b =
      (idLib.applyT img5).data r c b) ∧
    (1 < (idLib.applyT img5).d2 → ∀ r c,
      (assignBandSlice12 (idLib.applyT img5)
        (idLib.denoise_bands (sliceBands (idLib.applyT img5) 1 2) 15 2)).data r c 1 =
      (idLib.denoise_bands (sliceBands (idLib.applyT img5) 1 2) 15 2).data r c 0) ∧
    (MNF_reduce_component_2_noise_and_invert idLib img5 2).d2 = Int.toNat 2 ∧
    (∀ r c b, (MNF_reduce_component_2_noise_and_invert idLib img5 2).data r c b =
      (idLib.inverse_transform (assignBandSlice12 (idLib.applyT img5)
        (idLib.denoise_bands (sliceBands (idLib.applyT img5) 1 2) 15 2))).data r c (b + 1)) :=
  method2_structure idLib img5 2 (by decide) (by decide)

/-- Counterexample for claim C8 as stated: at the input path "img.jpeg" the
clip tool writes to "img.j_mask.tif", not to the stem-preserving,
extension-keeping name "img_mask.jpeg" the claim describes. -/
theorem clip_name_not_stem_preserving :
    clipOutputName "img.jpeg" ≠ clipOutputNameSpec "img" "jpeg" := by
  decide

/-- Theorem for claim C8 as amended: the clip output metadata differs from
the source metadata only in driver, height, width and transform (dtype,
count, crs and nodata are unchanged), and the output name is the input path
with its last four characters removed and "_mask.tif" appended — which
preserves the stem exactly for inputs with a four-character extension such
as ".tif". -/
theorem clip_meta_and_name (srcMeta : Meta) (m : MaskResult) (stem : String) :
    (clipOutputMeta srcMeta m).dtype = srcMeta.dtype ∧
    (clipOutputMeta srcMeta m).count = srcMeta.count ∧
    (clipOutputMeta srcMeta m).crs = srcMeta.crs ∧
    (clipOutputMeta srcMeta m).nodata = srcMeta.nodata ∧
    (clipOutputMeta srcMeta m).driver = "GTiff" ∧
    (clipOutputMeta srcMeta m).height = m.shape1 ∧
    (clipOutputMeta srcMeta m).width = m.shape2 ∧
    (clipOutputMeta srcMeta m).transform = m.transform ∧
    clipOutputName (stem ++ ".tif") = stem ++ "_mask.tif" := by
  refine ⟨rfl, rfl, rfl, rfl, rfl, rfl, rfl, rfl, ?_⟩
  unfold clipOutputName pySliceDropLast4
  congr 1
  rw [String.data_append]
  have h4 : ".tif".data.length = 4 := rfl
  rw [List.length_append, h4, Nat.add_sub_cancel, List.take_left]

end RS
